/-
Verification of the schema-aware shape-element object model
(`pptx/oxml/shapes/shared.py`).

The XML tree is shallowly embedded: an element has a tag, an attribute
list (name, value) and an ordered child list.  Attribute values are
modelled by `AVal` (integer, boolean or string); the string↔value codecs
(ST_Coordinate, ST_Angle, XsdBoolean, …) are external collaborators per
the spec and are modelled as the identity on the corresponding `AVal`
constructor, with a decode mismatch surfacing as `none`.

The descriptor machinery (`ZeroOrOne`, `ZeroOrOneChoice`,
`OptionalAttribute`, element construction, xpath lookup) lives in
`pptx/oxml/xmlchemy.py`, which is outside the excerpt; those operations
are modelled from the spec (§4.1 Attribute Accessor, §4.2 Child Presence
Descriptor and its ordering algorithm, §4.3 Element Base).  The slot
tables (tag sequences and successor lists), the `_new_off` / `_new_ext`
element constructors and all derived-property logic are translated
directly from `shared.py`.
-/
import Mathlib

/-- An XML attribute value: integer-, boolean- or string-typed.  The
string→value codecs are external (spec §1, §6); they are modelled as the
identity on the matching constructor. -/
inductive AVal where
  | int (i : Int)
  | bool (b : Bool)
  | str (s : String)
deriving DecidableEq, Repr

/-- An element of the XML tree: a tag name, an ordered attribute list and
an ordered child list (spec §3 "Element"). -/
inductive XElem where
  | mk (tag : String) (attrs : List (String × AVal)) (children : List XElem)
deriving Repr

mutual

def XElem.decEq : (a b : XElem) → Decidable (a = b)
  | .mk t1 a1 c1, .mk t2 a2 c2 =>
    if ht : t1 = t2 then
      if ha : a1 = a2 then
        match XElem.decEqList c1 c2 with
        | isTrue hc => isTrue (by rw [ht, ha, hc])
        | isFalse hc => isFalse (by intro h; cases h; exact hc rfl)
      else isFalse (by intro h; cases h; exact ha rfl)
    else isFalse (by intro h; cases h; exact ht rfl)

def XElem.decEqList : (a b : List XElem) → Decidable (a = b)
  | [], [] => isTrue rfl
  | [], _ :: _ => isFalse (by intro h; cases h)
  | _ :: _, [] => isFalse (by intro h; cases h)
  | x :: xs, y :: ys =>
    match XElem.decEq x y, XElem.decEqList xs ys with
    | isTrue h1, isTrue h2 => isTrue (by rw [h1, h2])
    | isFalse h1, _ => isFalse (by intro h; cases h; exact h1 rfl)
    | _, isFalse h2 => isFalse (by intro h; cases h; exact h2 rfl)

end

instance : DecidableEq XElem := XElem.decEq

def XElem.tag : XElem → String
  | .mk t _ _ => t

def XElem.attrs : XElem → List (String × AVal)
  | .mk _ a _ => a

def XElem.children : XElem → List XElem
  | .mk _ _ c => c

/-- Replace the child list of an element, keeping tag and attributes. -/
def XElem.withChildren : XElem → List XElem → XElem
  | .mk t a _, cs => .mk t a cs

/-- Look up an attribute by name (`None` if absent). -/
def getAttr (n : String) (e : XElem) : Option AVal :=
  (e.attrs.find? (fun p => decide (p.1 = n))).map (fun p => p.2)

def setAttrList (n : String) (v : AVal) : List (String × AVal) → List (String × AVal)
  | [] => [(n, v)]
  | p :: ps => if p.1 = n then (n, v) :: ps else p :: setAttrList n v ps

/-- Write an attribute, creating it if absent (spec §4.1 set). -/
def setAttr (n : String) (v : AVal) : XElem → XElem
  | .mk t a c => .mk t (setAttrList n v a) c

/-- Remove an attribute if present (spec §4.1: an optional attribute whose
written value matches omission semantics may be stored as absence). -/
def removeAttr (n : String) : XElem → XElem
  | .mk t a c => .mk t (a.filter (fun p => !decide (p.1 = n))) c

def decodeInt : AVal → Option Int
  | .int i => some i
  | _ => none

def decodeBool : AVal → Option Bool
  | .bool b => some b
  | _ => none

def decodeStr : AVal → Option String
  | .str s => some s
  | _ => none

/-- First direct child with the given tag, or `none` (spec §4.3
`first_child_matching`; `find(qn(tag))` in the source's idiom). -/
def firstChild (t : String) (e : XElem) : Option XElem :=
  e.children.find? (fun c => decide (c.tag = t))

/-- Modelled from the spec (§4.2 ordering algorithm,
`insert_element_before` in the missing `xmlchemy` module): insert a new
child immediately before the first existing child whose tag appears in
the slot's successor-tag list, or at the end if none does. -/
def insertBeforeSucc (e : XElem) (succ : List String) : List XElem → List XElem
  | [] => [e]
  | c :: cs => if c.tag ∈ succ then e :: c :: cs else c :: insertBeforeSucc e succ cs

/-- A child slot (spec §3 "Child Slot"): the candidate tag set (a
singleton for a `ZeroOrOne` slot, several tags for a `ZeroOrOneChoice`
slot) together with the schema successor-tag list. -/
structure ChildSlot where
  cands : List String
  succ : List String
deriving DecidableEq, Repr

/-- `true` iff the element's tag is one of the slot's candidate tags. -/
def isCand (slot : ChildSlot) (c : XElem) : Bool :=
  decide (c.tag ∈ slot.cands)

/-- Modelled from the spec (§4.2): schema-default-initialized element for
each tag.  `a:off` and `a:ext` are overridden by the source's
`CT_Transform2D._new_off` / `_new_ext` (x=0, y=0 resp. cx=0, cy=0); all
other tags get a bare element. -/
def newFor (t : String) : XElem :=
  if t = "a:off" then .mk "a:off" [("x", .int 0), ("y", .int 0)] []
  else if t = "a:ext" then .mk "a:ext" [("cx", .int 0), ("cy", .int 0)] []
  else .mk t [] []

/-- Modelled from the spec (§4.2 `get_or_add`): return the occupant of the
slot and the (possibly updated) parent.  If a child from the candidate set
is present it is returned and the parent is untouched; otherwise a new
element for the requested candidate tag is constructed and inserted at the
schema position. -/
def slotGetOrAdd (slot : ChildSlot) (cand : String) (parent : XElem) : XElem × XElem :=
  match parent.children.find? (isCand slot) with
  | some c => (c, parent)
  | none =>
      let e := newFor cand
      (e, parent.withChildren (insertBeforeSucc e slot.succ parent.children))

/-- Modelled from the spec (§4.2 remove): detach every child with the
given tag (idempotent when absent). -/
def removeChildren (t : String) (e : XElem) : XElem :=
  e.withChildren (e.children.filter (fun c => !decide (c.tag = t)))

def modifyChildren (t : String) (f : XElem → XElem) : List XElem → List XElem
  | [] => []
  | c :: cs => if c.tag = t then f c :: cs else c :: modifyChildren t f cs

/-- Apply `f` to the first child carrying tag `t` (the element the source
mutates in place after a `get_or_add`). -/
def modifyChild (t : String) (f : XElem → XElem) (p : XElem) : XElem :=
  p.withChildren (modifyChildren t f p.children)

/-! ## Slot tables, translated from the source's element classes -/

/-- `CT_ShapeProperties._tag_seq` (`p:spPr`). -/
def spPr_tag_seq : List String :=
  ["a:xfrm", "a:custGeom", "a:prstGeom", "a:noFill", "a:solidFill", "a:gradFill",
   "a:blipFill", "a:pattFill", "a:grpFill", "a:ln", "a:effectLst", "a:effectDag",
   "a:scene3d", "a:sp3d", "a:extLst"]

/-- `CT_ShapeProperties.xfrm = ZeroOrOne("a:xfrm", successors=_tag_seq[1:])`. -/
def spPr_xfrm_slot : ChildSlot := ⟨["a:xfrm"], spPr_tag_seq.drop 1⟩

/-- `CT_ShapeProperties.custGeom = ZeroOrOne("a:custGeom", successors=_tag_seq[2:])`. -/
def spPr_custGeom_slot : ChildSlot := ⟨["a:custGeom"], spPr_tag_seq.drop 2⟩

/-- `CT_ShapeProperties.prstGeom = ZeroOrOne("a:prstGeom", successors=_tag_seq[3:])`. -/
def spPr_prstGeom_slot : ChildSlot := ⟨["a:prstGeom"], spPr_tag_seq.drop 3⟩

/-- `CT_ShapeProperties.eg_fillProperties = ZeroOrOneChoice(..., successors=_tag_seq[9:])`. -/
def spPr_fill_slot : ChildSlot :=
  ⟨["a:noFill", "a:solidFill", "a:gradFill", "a:blipFill", "a:pattFill", "a:grpFill"],
   spPr_tag_seq.drop 9⟩

/-- `CT_ShapeProperties.ln = ZeroOrOne("a:ln", successors=_tag_seq[10:])`. -/
def spPr_ln_slot : ChildSlot := ⟨["a:ln"], spPr_tag_seq.drop 10⟩

/-- `CT_ShapeProperties.effectLst = ZeroOrOne("a:effectLst", successors=_tag_seq[11:])`. -/
def spPr_effectLst_slot : ChildSlot := ⟨["a:effectLst"], spPr_tag_seq.drop 11⟩

def spPrSlots : List ChildSlot :=
  [spPr_xfrm_slot, spPr_custGeom_slot, spPr_prstGeom_slot, spPr_fill_slot,
   spPr_ln_slot, spPr_effectLst_slot]

/-- `CT_Transform2D._tag_seq` (`a:xfrm`). -/
def xfrm_tag_seq : List String := ["a:off", "a:ext", "a:chOff", "a:chExt"]

/-- `CT_Transform2D.off = ZeroOrOne("a:off", successors=_tag_seq[1:])`. -/
def xfrm_off_slot : ChildSlot := ⟨["a:off"], xfrm_tag_seq.drop 1⟩

/-- `CT_Transform2D.ext = ZeroOrOne("a:ext", successors=_tag_seq[2:])`. -/
def xfrm_ext_slot : ChildSlot := ⟨["a:ext"], xfrm_tag_seq.drop 2⟩

/-- `CT_Transform2D.chOff = ZeroOrOne("a:chOff", successors=_tag_seq[3:])`. -/
def xfrm_chOff_slot : ChildSlot := ⟨["a:chOff"], xfrm_tag_seq.drop 3⟩

/-- `CT_Transform2D.chExt = ZeroOrOne("a:chExt", successors=_tag_seq[4:])`. -/
def xfrm_chExt_slot : ChildSlot := ⟨["a:chExt"], xfrm_tag_seq.drop 4⟩

def xfrmSlots : List ChildSlot :=
  [xfrm_off_slot, xfrm_ext_slot, xfrm_chOff_slot, xfrm_chExt_slot]

/-- `CT_LineProperties._tag_seq` (`a:ln`). -/
def ln_tag_seq : List String :=
  ["a:noFill", "a:solidFill", "a:gradFill", "a:pattFill", "a:prstDash", "a:custDash",
   "a:round", "a:bevel", "a:miter", "a:headEnd", "a:tailEnd", "a:extLst"]

/-- `CT_LineProperties.eg_lineFillProperties = ZeroOrOneChoice(..., successors=_tag_seq[4:])`. -/
def ln_fill_slot : ChildSlot :=
  ⟨["a:noFill", "a:solidFill", "a:gradFill", "a:pattFill"], ln_tag_seq.drop 4⟩

/-- `CT_LineProperties.prstDash = ZeroOrOne("a:prstDash", successors=_tag_seq[5:])`. -/
def ln_prstDash_slot : ChildSlot := ⟨["a:prstDash"], ln_tag_seq.drop 5⟩

/-- `CT_LineProperties.custDash = ZeroOrOne("a:custDash", successors=_tag_seq[6:])`. -/
def ln_custDash_slot : ChildSlot := ⟨["a:custDash"], ln_tag_seq.drop 6⟩

def lnSlots : List ChildSlot := [ln_fill_slot, ln_prstDash_slot, ln_custDash_slot]

/-- `CT_NonVisualDrawingProps._tag_seq` (`p:cNvPr`). -/
def cNvPr_tag_seq : List String := ["a:hlinkClick", "a:hlinkHover", "a:extLst"]

/-- `CT_NonVisualDrawingProps.hlinkClick = ZeroOrOne("a:hlinkClick", successors=_tag_seq[1:])`. -/
def cNvPr_hlinkClick_slot : ChildSlot := ⟨["a:hlinkClick"], cNvPr_tag_seq.drop 1⟩

/-- `CT_NonVisualDrawingProps.hlinkHover = ZeroOrOne("a:hlinkHover", successors=_tag_seq[2:])`. -/
def cNvPr_hlinkHover_slot : ChildSlot := ⟨["a:hlinkHover"], cNvPr_tag_seq.drop 2⟩

def cNvPrSlots : List ChildSlot := [cNvPr_hlinkClick_slot, cNvPr_hlinkHover_slot]

/-- Successor list of `CT_ApplicationNonVisualDrawingProps.ph = ZeroOrOne("p:ph", ...)`. -/
def nvPr_ph_succ : List String :=
  ["a:audioCd", "a:wavAudioFile", "a:audioFile", "a:videoFile", "a:quickTimeFile",
   "p:custDataLst", "p:extLst"]

/-- Implied tag sequence of `p:nvPr`: the `p:ph` slot followed by its successors. -/
def nvPr_tag_seq : List String := "p:ph" :: nvPr_ph_succ

def nvPr_ph_slot : ChildSlot := ⟨["p:ph"], nvPr_ph_succ⟩

def nvPrSlots : List ChildSlot := [nvPr_ph_slot]

/-! ## Transform properties (`CT_Transform2D` in the source) -/

/-- `CT_Transform2D.x`: `off = self.off; None if off is None; off.x` (the
`x` attribute of the `a:off` child, a required `ST_Coordinate`). -/
def xfrm_x (x : XElem) : Option Int :=
  (firstChild "a:off" x).bind (fun off => (getAttr "x" off).bind decodeInt)

/-- `CT_Transform2D.y`. -/
def xfrm_y (x : XElem) : Option Int :=
  (firstChild "a:off" x).bind (fun off => (getAttr "y" off).bind decodeInt)

/-- `CT_Transform2D.cx`: via the `a:ext` child. -/
def xfrm_cx (x : XElem) : Option Int :=
  (firstChild "a:ext" x).bind (fun ext => (getAttr "cx" ext).bind decodeInt)

/-- `CT_Transform2D.cy`. -/
def xfrm_cy (x : XElem) : Option Int :=
  (firstChild "a:ext" x).bind (fun ext => (getAttr "cy" ext).bind decodeInt)

/-- `CT_Transform2D.rot = OptionalAttribute("rot", ST_Angle, default=0.0)`:
absent reads as the default 0 (the fixed-point-degree codec is external,
so the value is kept as an integer).  A decode mismatch is `none`. -/
def xfrm_rot (x : XElem) : Option Int :=
  match getAttr "rot" x with
  | none => some 0
  | some v => decodeInt v

/-- `CT_Transform2D.flipH = OptionalAttribute("flipH", XsdBoolean, default=False)`. -/
def xfrm_flipH (x : XElem) : Option Bool :=
  match getAttr "flipH" x with
  | none => some false
  | some v => decodeBool v

/-- `CT_Transform2D.flipV = OptionalAttribute("flipV", XsdBoolean, default=False)`. -/
def xfrm_flipV (x : XElem) : Option Bool :=
  match getAttr "flipV" x with
  | none => some false
  | some v => decodeBool v

/-- `CT_Transform2D.x` setter: `off = self.get_or_add_off(); off.x = value`. -/
def xfrm_set_x (v : Int) (x : XElem) : XElem :=
  modifyChild "a:off" (setAttr "x" (.int v)) (slotGetOrAdd xfrm_off_slot "a:off" x).2

/-- `CT_Transform2D.y` setter. -/
def xfrm_set_y (v : Int) (x : XElem) : XElem :=
  modifyChild "a:off" (setAttr "y" (.int v)) (slotGetOrAdd xfrm_off_slot "a:off" x).2

/-- `CT_Transform2D.cx` setter: `ext = self.get_or_add_ext(); ext.cx = value`. -/
def xfrm_set_cx (v : Int) (x : XElem) : XElem :=
  modifyChild "a:ext" (setAttr "cx" (.int v)) (slotGetOrAdd xfrm_ext_slot "a:ext" x).2

/-- `CT_Transform2D.cy` setter. -/
def xfrm_set_cy (v : Int) (x : XElem) : XElem :=
  modifyChild "a:ext" (setAttr "cy" (.int v)) (slotGetOrAdd xfrm_ext_slot "a:ext" x).2

/-- Modelled from the spec (§4.1 set, `OptionalAttribute` setter in the
missing `xmlchemy` module): writing the declared default (0) stores the
attribute as absence, any other value is written. -/
def xfrm_set_rot (v : Int) (x : XElem) : XElem :=
  if v = 0 then removeAttr "rot" x else setAttr "rot" (.int v) x

/-- Modelled from the spec (§4.1 set): a boolean flag whose default is
false is stored as absence when false is written. -/
def xfrm_set_flipH (b : Bool) (x : XElem) : XElem :=
  if b then setAttr "flipH" (.bool true) x else removeAttr "flipH" x

/-- Modelled from the spec (§4.1 set), as for `flipH`. -/
def xfrm_set_flipV (b : Bool) (x : XElem) : XElem :=
  if b then setAttr "flipV" (.bool true) x else removeAttr "flipV" x

/-! ## Shape-level properties (`BaseShapeElement` in the source) -/

/-- `self.spPr`: the shape's `p:spPr` child (declared on the concrete
shape classes outside this excerpt; spec §3: a shape owns its shape
properties block as a direct child). -/
def shape_spPr (sp : XElem) : Option XElem :=
  firstChild "p:spPr" sp

/-- `BaseShapeElement.xfrm = self.spPr.xfrm`: the `a:xfrm` grandchild or
`None`. -/
def shape_xfrm (sp : XElem) : Option XElem :=
  (shape_spPr sp).bind (firstChild "a:xfrm")

/-- `BaseShapeElement._get_xfrm_attr` composed with `CT_Transform2D.x`:
`None` when the transform is absent. -/
def shape_x (sp : XElem) : Option Int := (shape_xfrm sp).bind xfrm_x

def shape_y (sp : XElem) : Option Int := (shape_xfrm sp).bind xfrm_y

def shape_cx (sp : XElem) : Option Int := (shape_xfrm sp).bind xfrm_cx

def shape_cy (sp : XElem) : Option Int := (shape_xfrm sp).bind xfrm_cy

/-- `BaseShapeElement.rot`: `0.0` when the transform or its `rot`
attribute is absent, else the attribute value. -/
def shape_rot (sp : XElem) : Int :=
  match (shape_xfrm sp).bind xfrm_rot with
  | none => 0
  | some r => r

/-- `BaseShapeElement.flipH = bool(self._get_xfrm_attr("flipH"))`:
`bool(None)` is false. -/
def shape_flipH (sp : XElem) : Bool :=
  match (shape_xfrm sp).bind xfrm_flipH with
  | none => false
  | some b => b

/-- `BaseShapeElement.flipV`, as for `flipH`. -/
def shape_flipV (sp : XElem) : Bool :=
  match (shape_xfrm sp).bind xfrm_flipV with
  | none => false
  | some b => b

/-- `BaseShapeElement._set_xfrm_attr`: `xfrm = self.get_or_add_xfrm()`
(that is, `self.spPr.get_or_add_xfrm()`) followed by a mutation of the
returned transform element. -/
def shape_modify_xfrm (f : XElem → XElem) (sp : XElem) : XElem :=
  modifyChild "p:spPr"
    (fun spPr => modifyChild "a:xfrm" f (slotGetOrAdd spPr_xfrm_slot "a:xfrm" spPr).2) sp

def shape_set_x (v : Int) (sp : XElem) : XElem := shape_modify_xfrm (xfrm_set_x v) sp

def shape_set_y (v : Int) (sp : XElem) : XElem := shape_modify_xfrm (xfrm_set_y v) sp

def shape_set_cx (v : Int) (sp : XElem) : XElem := shape_modify_xfrm (xfrm_set_cx v) sp

def shape_set_cy (v : Int) (sp : XElem) : XElem := shape_modify_xfrm (xfrm_set_cy v) sp

/-- `BaseShapeElement.rot` setter: `self.get_or_add_xfrm().rot = value`. -/
def shape_set_rot (v : Int) (sp : XElem) : XElem := shape_modify_xfrm (xfrm_set_rot v) sp

def shape_set_flipH (b : Bool) (sp : XElem) : XElem := shape_modify_xfrm (xfrm_set_flipH b) sp

def shape_set_flipV (b : Bool) (sp : XElem) : XElem := shape_modify_xfrm (xfrm_set_flipV b) sp

/-! ## Placeholder resolver (`BaseShapeElement.ph` and the typed accessors) -/

/-- `BaseShapeElement.ph`: the xpath `./*[1]/p:nvPr/p:ph` — every `p:ph`
child of every `p:nvPr` child of the shape's first child, in document
order — returning the first hit or `None`. -/
def shape_ph (sp : XElem) : Option XElem :=
  match sp.children.head? with
  | none => none
  | some c =>
      ((c.children.filter (fun n => decide (n.tag = "p:nvPr"))).flatMap
        (fun n => n.children.filter (fun m => decide (m.tag = "p:ph")))).head?

/-- `BaseShapeElement.has_ph_elm`. -/
def shape_has_ph_elm (sp : XElem) : Bool := (shape_ph sp).isSome

/-- The error a typed placeholder accessor raises on a shape with no
placeholder marker (`ValueError("not a placeholder shape")` in the
source; `NotAPlaceholder` in the spec's taxonomy). -/
inductive PhError where
  | notAPlaceholder
deriving DecidableEq, Repr

/-- Enumerated default of `CT_Placeholder.type` (`PP_PLACEHOLDER.OBJECT`). -/
def PP_PLACEHOLDER_OBJECT : String := "obj"

/-- Enumerated default of `CT_Placeholder.orient` (`ST_Direction.HORZ`). -/
def ST_Direction_HORZ : String := "horz"

/-- Enumerated default of `CT_Placeholder.sz` (`ST_PlaceholderSize.FULL`). -/
def ST_PlaceholderSize_FULL : String := "full"

/-- `CT_Placeholder.type = OptionalAttribute("type", PP_PLACEHOLDER,
default=PP_PLACEHOLDER.OBJECT)`.  A decode mismatch is `none`. -/
def ct_Placeholder_type (m : XElem) : Option String :=
  match getAttr "type" m with
  | none => some PP_PLACEHOLDER_OBJECT
  | some v => decodeStr v

/-- `CT_Placeholder.orient = OptionalAttribute("orient", ST_Direction,
default=ST_Direction.HORZ)`. -/
def ct_Placeholder_orient (m : XElem) : Option String :=
  match getAttr "orient" m with
  | none => some ST_Direction_HORZ
  | some v => decodeStr v

/-- `CT_Placeholder.sz = OptionalAttribute("sz", ST_PlaceholderSize,
default=ST_PlaceholderSize.FULL)`. -/
def ct_Placeholder_sz (m : XElem) : Option String :=
  match getAttr "sz" m with
  | none => some ST_PlaceholderSize_FULL
  | some v => decodeStr v

/-- `CT_Placeholder.idx = OptionalAttribute("idx", XsdUnsignedInt,
default=0)`. -/
def ct_Placeholder_idx (m : XElem) : Option Int :=
  match getAttr "idx" m with
  | none => some 0
  | some v => decodeInt v

/-- `BaseShapeElement.ph_type`: raises when the shape is not a
placeholder, else reads the marker's `type` attribute. -/
def shape_ph_type (sp : XElem) : Except PhError (Option String) :=
  match shape_ph sp with
  | none => .error .notAPlaceholder
  | some m => .ok (ct_Placeholder_type m)

/-- `BaseShapeElement.ph_orient`. -/
def shape_ph_orient (sp : XElem) : Except PhError (Option String) :=
  match shape_ph sp with
  | none => .error .notAPlaceholder
  | some m => .ok (ct_Placeholder_orient m)

/-- `BaseShapeElement.ph_sz`. -/
def shape_ph_sz (sp : XElem) : Except PhError (Option String) :=
  match shape_ph sp with
  | none => .error .notAPlaceholder
  | some m => .ok (ct_Placeholder_sz m)

/-- `BaseShapeElement.ph_idx`. -/
def shape_ph_idx (sp : XElem) : Except PhError (Option Int) :=
  match shape_ph sp with
  | none => .error .notAPlaceholder
  | some m => .ok (ct_Placeholder_idx m)

/-! ## Line properties (`CT_LineProperties` in the source) -/

/-- `CT_LineProperties.prstDash_val` getter: `None` when the `a:prstDash`
child is absent, else its `val` attribute. -/
def ln_prstDash_val (ln : XElem) : Option AVal :=
  match firstChild "a:prstDash" ln with
  | none => none
  | some pd => getAttr "val" pd

/-- `CT_LineProperties.prstDash_val` setter: `self._remove_custDash();
prstDash = self.get_or_add_prstDash(); prstDash.val = val`. -/
def ln_set_prstDash_val (v : AVal) (ln : XElem) : XElem :=
  modifyChild "a:prstDash" (setAttr "val" v)
    (slotGetOrAdd ln_prstDash_slot "a:prstDash" (removeChildren "a:custDash" ln)).2

/-! ## Schema ordering -/

/-- Position of a tag inside a declared tag sequence. -/
def tagIdx (seq : List String) (t : String) : Nat := seq.indexOf t

/-- The children's tags appear in the relative order fixed by the
declared tag sequence (spec §3 Element invariant). -/
def SchemaOrdered (seq : List String) (cs : List XElem) : Prop :=
  cs.Pairwise (fun a b => tagIdx seq a.tag ≤ tagIdx seq b.tag)

/-- A schema-valid child list: tags drawn from the declared sequence, in
schema order. -/
def SchemaValid (seq : List String) (cs : List XElem) : Prop :=
  SchemaOrdered seq cs ∧ ∀ c ∈ cs, c.tag ∈ seq

/-- Well-formedness of a slot declaration with respect to its element
type's tag sequence: candidates come from the sequence, every successor
tag lies strictly after every candidate, and every sequence tag that is
not a successor is a candidate or lies at or before every candidate. -/
def SlotWF (seq : List String) (s : ChildSlot) : Prop :=
  (∀ t ∈ s.cands, t ∈ seq) ∧
  (∀ t ∈ s.cands, ∀ u ∈ s.succ, tagIdx seq t < tagIdx seq u) ∧
  (∀ t ∈ s.cands, ∀ u ∈ seq, u ∉ s.succ → u ∈ s.cands ∨ tagIdx seq u ≤ tagIdx seq t)

/-- One `get_or_add` call: the slot it addresses and the candidate tag it
requests (for a `ZeroOrOne` slot the candidate is the slot's only tag). -/
structure GoaOp where
  slot : ChildSlot
  cand : String
deriving DecidableEq, Repr

/-- Run a sequence of `get_or_add` calls against a parent element. -/
def applyOps : List GoaOp → XElem → XElem
  | [], p => p
  | op :: ops, p => applyOps ops (slotGetOrAdd op.slot op.cand p).2

/-- Every op addresses a declared slot of the element type and requests
one of that slot's candidate tags. -/
def OpsFor (slots : List ChildSlot) (ops : List GoaOp) : Prop :=
  ∀ op ∈ ops, op.slot ∈ slots ∧ op.cand ∈ op.slot.cands

instance (seq : List String) (s : ChildSlot) : Decidable (SlotWF seq s) := by
  unfold SlotWF
  infer_instance

instance (seq : List String) (cs : List XElem) : Decidable (SchemaOrdered seq cs) := by
  unfold SchemaOrdered
  infer_instance

instance (seq : List String) (cs : List XElem) : Decidable (SchemaValid seq cs) := by
  unfold SchemaValid
  infer_instance

instance (slots : List ChildSlot) (ops : List GoaOp) : Decidable (OpsFor slots ops) := by
  unfold OpsFor
  infer_instance

/-! ## Helper lemmas -/

theorem XElem.tag_mk (t : String) (a : List (String × AVal)) (c : List XElem) :
    (XElem.mk t a c).tag = t := rfl

theorem XElem.tag_withChildren (e : XElem) (cs : List XElem) :
    (e.withChildren cs).tag = e.tag := by
  cases e; rfl

theorem XElem.children_withChildren (e : XElem) (cs : List XElem) :
    (e.withChildren cs).children = cs := by
  cases e; rfl

theorem newFor_tag (t : String) : (newFor t).tag = t := by
  unfold newFor
  by_cases h1 : t = "a:off"
  · simp [h1, XElem.tag_mk]
  · by_cases h2 : t = "a:ext" <;> simp [h1, h2, XElem.tag_mk]

theorem setAttr_tag (n : String) (v : AVal) (e : XElem) : (setAttr n v e).tag = e.tag := by
  cases e; rfl

theorem removeAttr_tag (n : String) (e : XElem) : (removeAttr n e).tag = e.tag := by
  cases e; rfl

theorem mem_insertBeforeSucc {x e : XElem} {succ : List String} {l : List XElem} :
    x ∈ insertBeforeSucc e succ l ↔ x = e ∨ x ∈ l := by
  induction l with
  | nil => simp [insertBeforeSucc]
  | cons c cs ih =>
      by_cases h : c.tag ∈ succ
      · simp [insertBeforeSucc, h]
      · simp [insertBeforeSucc, h, ih]
        tauto

theorem find?_insertBeforeSucc {p : XElem → Bool} {e : XElem} {succ : List String}
    {l : List XElem} (h : l.find? p = none) (he : p e = true) :
    (insertBeforeSucc e succ l).find? p = some e := by
  induction l with
  | nil => simp [insertBeforeSucc, List.find?, he]
  | cons c cs ih =>
      rw [List.find?_cons] at h
      have hc : p c = false := by
        cases hpc : p c with
        | false => rfl
        | true => rw [hpc] at h; exact absurd h (by simp)
      rw [hc] at h
      by_cases hmem : c.tag ∈ succ
      · simp [insertBeforeSucc, hmem, List.find?, he]
      · simp only [insertBeforeSucc, if_neg hmem]
        rw [List.find?_cons, hc]
        exact ih h

theorem countP_insertBeforeSucc (p : XElem → Bool) (e : XElem) (succ : List String)
    (l : List XElem) :
    (insertBeforeSucc e succ l).countP p = l.countP p + (if p e then 1 else 0) := by
  induction l with
  | nil => by_cases hp : p e <;> simp [insertBeforeSucc, List.countP_cons, hp]
  | cons c cs ih =>
      by_cases hmem : c.tag ∈ succ
      · by_cases hp : p e
        · simp [insertBeforeSucc, hmem, List.countP_cons, hp]
        · simp [insertBeforeSucc, hmem, List.countP_cons, hp]
      · simp only [insertBeforeSucc, if_neg hmem]
        rw [List.countP_cons, List.countP_cons, ih]
        omega

theorem modifyChildren_insertBeforeSucc {t : String} (f : XElem → XElem) {e : XElem}
    {succ : List String} {l : List XElem} (hl : ∀ c ∈ l, c.tag ≠ t) (he : e.tag = t) :
    modifyChildren t f (insertBeforeSucc e succ l) = insertBeforeSucc (f e) succ l := by
  induction l with
  | nil => simp [insertBeforeSucc, modifyChildren, he]
  | cons c cs ih =>
      have hct : c.tag ≠ t := hl c (by simp)
      by_cases hmem : c.tag ∈ succ
      · simp [insertBeforeSucc, hmem, modifyChildren, he, hct]
      · simp only [insertBeforeSucc, if_neg hmem, modifyChildren, if_neg hct]
        rw [ih (fun d hd => hl d (by simp [hd]))]

theorem firstChild_modifyChild (t : String) (f : XElem → XElem) (p : XElem)
    (hf : ∀ c, (f c).tag = c.tag) :
    firstChild t (modifyChild t f p) = (firstChild t p).map f := by
  unfold firstChild modifyChild
  rw [XElem.children_withChildren]
  induction p.children with
  | nil => simp [modifyChildren]
  | cons c cs ih =>
      by_cases hct : c.tag = t
      · simp [modifyChildren, hct, List.find?_cons, hf]
      · have hdec : (decide (c.tag = t)) = false := by simp [hct]
        simp only [modifyChildren, if_neg hct]
        rw [List.find?_cons, List.find?_cons, hdec]
        exact ih

theorem modifyChild_tag (t : String) (f : XElem → XElem) (p : XElem) :
    (modifyChild t f p).tag = p.tag := by
  cases p; rfl

theorem XElem.withChildren_withChildren (e : XElem) (a b : List XElem) :
    (e.withChildren a).withChildren b = e.withChildren b := by
  cases e; rfl

theorem slotGetOrAdd_tag (slot : ChildSlot) (cand : String) (p : XElem) :
    ((slotGetOrAdd slot cand p).2).tag = p.tag := by
  unfold slotGetOrAdd
  cases h : p.children.find? (isCand slot) <;> simp [h, XElem.tag_withChildren]

theorem find?_isCand_singleton (t : String) (succ : List String) (l : List XElem) :
    l.find? (isCand ⟨[t], succ⟩) = l.find? (fun c => decide (c.tag = t)) := by
  have h : isCand ⟨[t], succ⟩ = fun c => decide (c.tag = t) := by
    funext c
    apply decide_eq_decide.mpr
    simp [List.mem_singleton]
  rw [h]

/-- Inserting a well-placed element keeps the children in schema order. -/
theorem insertBeforeSucc_ordered {seq : List String} {cs : List XElem} {e : XElem}
    {succ : List String} (hs : SchemaOrdered seq cs)
    (hbefore : ∀ c ∈ cs, c.tag ∉ succ → tagIdx seq c.tag ≤ tagIdx seq e.tag)
    (hafter : ∀ c ∈ cs, c.tag ∈ succ → tagIdx seq e.tag ≤ tagIdx seq c.tag) :
    SchemaOrdered seq (insertBeforeSucc e succ cs) := by
  induction cs with
  | nil => simp [insertBeforeSucc, SchemaOrdered]
  | cons c cs ih =>
      rw [SchemaOrdered, List.pairwise_cons] at hs
      obtain ⟨hc, hcs⟩ := hs
      by_cases hmem : c.tag ∈ succ
      · have hec : tagIdx seq e.tag ≤ tagIdx seq c.tag := hafter c (by simp) hmem
        rw [insertBeforeSucc, if_pos hmem, SchemaOrdered, List.pairwise_cons]
        constructor
        · intro d hd
          rcases List.mem_cons.mp hd with hd | hd
          · rw [hd]; exact hec
          · exact le_trans hec (hc d hd)
        · rw [SchemaOrdered] at *
          rw [List.pairwise_cons]
          exact ⟨hc, hcs⟩
      · rw [insertBeforeSucc, if_neg hmem, SchemaOrdered, List.pairwise_cons]
        constructor
        · intro d hd
          rcases mem_insertBeforeSucc.mp hd with hd | hd
          · rw [hd]
            exact hbefore c (by simp) hmem
          · exact hc d hd
        · exact ih hcs (fun d hd h => hbefore d (by simp [hd]) h)
            (fun d hd h => hafter d (by simp [hd]) h)

/-- One `get_or_add` call on a well-formed slot keeps the parent's child
list schema-valid. -/
theorem slotGetOrAdd_schemaValid {seq : List String} {slot : ChildSlot} {cand : String}
    (hwf : SlotWF seq slot) (hc : cand ∈ slot.cands) (p : XElem)
    (hp : SchemaValid seq p.children) :
    SchemaValid seq ((slotGetOrAdd slot cand p).2).children := by
  obtain ⟨hwf1, hwf2, hwf3⟩ := hwf
  unfold slotGetOrAdd
  cases hfind : p.children.find? (isCand slot) with
  | some c => simpa [hfind] using hp
  | none =>
      simp only [hfind, XElem.children_withChildren]
      have hnone : ∀ c ∈ p.children, c.tag ∉ slot.cands := by
        intro c hcm hmem
        have := List.find?_eq_none.mp hfind c hcm
        simp [isCand, hmem] at this
      constructor
      · apply insertBeforeSucc_ordered hp.1
        · intro c hcm hcsucc
          rw [newFor_tag]
          rcases hwf3 cand hc c.tag (hp.2 c hcm) hcsucc with h | h
          · exact absurd h (hnone c hcm)
          · exact h
        · intro c hcm hcsucc
          rw [newFor_tag]
          exact le_of_lt (hwf2 cand hc c.tag hcsucc)
      · intro c hcm
        rcases mem_insertBeforeSucc.mp hcm with h | h
        · rw [h, newFor_tag]
          exact hwf1 cand hc
        · exact hp.2 c h

theorem slotGetOrAdd_found {slot : ChildSlot} {cand : String} {p c : XElem}
    (h : p.children.find? (isCand slot) = some c) :
    slotGetOrAdd slot cand p = (c, p) := by
  unfold slotGetOrAdd
  rw [h]

/-- After a `get_or_add`, the slot's occupant is the first child from the
candidate set of the updated parent. -/
theorem slotGetOrAdd_occupant_present (slot : ChildSlot) (cand : String) (p : XElem)
    (hc : cand ∈ slot.cands) :
    ((slotGetOrAdd slot cand p).2).children.find? (isCand slot)
      = some (slotGetOrAdd slot cand p).1 := by
  cases h : p.children.find? (isCand slot) with
  | some c => rw [slotGetOrAdd_found h]; exact h
  | none =>
      unfold slotGetOrAdd
      rw [h]
      simp only [XElem.children_withChildren]
      apply find?_insertBeforeSucc h
      simp [isCand, newFor_tag, hc]

/-- `get_or_add` on a `ZeroOrOne` slot leaves the slot's child equal to
the element found before the call, or to the fresh default element. -/
theorem firstChild_slotGetOrAdd_singleton (t : String) (succ : List String) (p : XElem) :
    firstChild t ((slotGetOrAdd ⟨[t], succ⟩ t p).2)
      = some ((firstChild t p).getD (newFor t)) := by
  unfold slotGetOrAdd
  rw [find?_isCand_singleton]
  cases h : p.children.find? (fun c => decide (c.tag = t)) with
  | some c =>
      simp only [h]
      unfold firstChild
      rw [h]
      rfl
  | none =>
      simp only [h]
      unfold firstChild
      rw [XElem.children_withChildren, h]
      rw [find?_insertBeforeSucc h (by simp [newFor_tag])]
      rfl

theorem xfrm_set_x_tag (v : Int) (x : XElem) : (xfrm_set_x v x).tag = x.tag := by
  unfold xfrm_set_x
  rw [modifyChild_tag, slotGetOrAdd_tag]

theorem xfrm_set_y_tag (v : Int) (x : XElem) : (xfrm_set_y v x).tag = x.tag := by
  unfold xfrm_set_y
  rw [modifyChild_tag, slotGetOrAdd_tag]

theorem xfrm_set_cx_tag (v : Int) (x : XElem) : (xfrm_set_cx v x).tag = x.tag := by
  unfold xfrm_set_cx
  rw [modifyChild_tag, slotGetOrAdd_tag]

theorem xfrm_set_cy_tag (v : Int) (x : XElem) : (xfrm_set_cy v x).tag = x.tag := by
  unfold xfrm_set_cy
  rw [modifyChild_tag, slotGetOrAdd_tag]

theorem xfrm_set_rot_tag (v : Int) (x : XElem) : (xfrm_set_rot v x).tag = x.tag := by
  unfold xfrm_set_rot
  by_cases h : v = 0 <;> simp [h, removeAttr_tag, setAttr_tag]

theorem xfrm_set_flipH_tag (b : Bool) (x : XElem) : (xfrm_set_flipH b x).tag = x.tag := by
  unfold xfrm_set_flipH
  by_cases h : b <;> simp [h, removeAttr_tag, setAttr_tag]

theorem xfrm_set_flipV_tag (b : Bool) (x : XElem) : (xfrm_set_flipV b x).tag = x.tag := by
  unfold xfrm_set_flipV
  by_cases h : b <;> simp [h, removeAttr_tag, setAttr_tag]

/-- Writing through `_set_xfrm_attr` reaches the shape's transform: the
resulting transform is the mutation applied to the pre-existing transform
or—when none existed—to the freshly constructed default transform. -/
theorem shape_modify_xfrm_eq {sp spPr : XElem} (f : XElem → XElem)
    (hsp : firstChild "p:spPr" sp = some spPr)
    (hf : ∀ c, (f c).tag = c.tag) :
    shape_xfrm (shape_modify_xfrm f sp)
      = some (f ((firstChild "a:xfrm" spPr).getD (newFor "a:xfrm"))) := by
  have hg : ∀ c : XElem,
      (modifyChild "a:xfrm" f (slotGetOrAdd spPr_xfrm_slot "a:xfrm" c).2).tag = c.tag := by
    intro c
    rw [modifyChild_tag, slotGetOrAdd_tag]
  unfold shape_xfrm shape_spPr shape_modify_xfrm
  rw [firstChild_modifyChild _ _ _ hg, hsp]
  simp only [Option.map_some', Option.some_bind]
  rw [firstChild_modifyChild _ _ _ hf]
  have : spPr_xfrm_slot = (⟨["a:xfrm"], spPr_tag_seq.drop 1⟩ : ChildSlot) := rfl
  rw [this, firstChild_slotGetOrAdd_singleton]
  rfl

/-- Any sequence of `get_or_add` calls on declared, well-formed slots
keeps the parent's child list schema-valid. -/
theorem applyOps_schemaValid {seq : List String} {slots : List ChildSlot}
    (hwf : ∀ s ∈ slots, SlotWF seq s) (ops : List GoaOp) (hops : OpsFor slots ops)
    (p : XElem) (hp : SchemaValid seq p.children) :
    SchemaValid seq (applyOps ops p).children := by
  induction ops generalizing p with
  | nil => exact hp
  | cons op ops ih =>
      rw [applyOps]
      have hop := hops op (by simp)
      exact ih (fun o ho => hops o (by simp [ho]))
        ((slotGetOrAdd op.slot op.cand p).2)
        (slotGetOrAdd_schemaValid (hwf op.slot hop.1) hop.2 p hp)

theorem spPrSlots_wf : ∀ s ∈ spPrSlots, SlotWF spPr_tag_seq s := by decide

theorem xfrmSlots_wf : ∀ s ∈ xfrmSlots, SlotWF xfrm_tag_seq s := by decide

theorem lnSlots_wf : ∀ s ∈ lnSlots, SlotWF ln_tag_seq s := by decide

theorem cNvPrSlots_wf : ∀ s ∈ cNvPrSlots, SlotWF cNvPr_tag_seq s := by decide

theorem nvPrSlots_wf : ∀ s ∈ nvPrSlots, SlotWF nvPr_tag_seq s := by decide

/-- The insertion point of the ordering algorithm: right before the first
child whose tag is a successor, at the end when there is none. -/
theorem insertBeforeSucc_spec (e : XElem) (succ : List String) (cs : List XElem) :
    insertBeforeSucc e succ cs
      = cs.takeWhile (fun c => !decide (c.tag ∈ succ))
        ++ e :: cs.dropWhile (fun c => !decide (c.tag ∈ succ)) := by
  induction cs with
  | nil => simp [insertBeforeSucc]
  | cons c cs ih =>
      by_cases h : c.tag ∈ succ
      · simp [insertBeforeSucc, h, List.takeWhile_cons, List.dropWhile_cons]
      · simp [insertBeforeSucc, h, List.takeWhile_cons, List.dropWhile_cons, ih]

/-! ## The claims -/

/-- C1: every insertion made by `get_or_add` lands immediately before the
first existing child whose tag is in the slot's successor list (at the
end if none), and for each element type with declared child slots
(`p:spPr`, `a:xfrm`, `a:ln`, `p:cNvPr`, `p:nvPr`), any sequence of
`get_or_add` calls across its slots, starting from any schema-valid child
list, leaves the children's tags in the declared schema order. -/
theorem claim_C1 :
    (∀ (e : XElem) (succ : List String) (cs : List XElem),
        insertBeforeSucc e succ cs
          = cs.takeWhile (fun c => !decide (c.tag ∈ succ))
            ++ e :: cs.dropWhile (fun c => !decide (c.tag ∈ succ)))
    ∧ (∀ (ops : List GoaOp) (p : XElem), OpsFor spPrSlots ops →
        SchemaValid spPr_tag_seq p.children →
        SchemaValid spPr_tag_seq (applyOps ops p).children)
    ∧ (∀ (ops : List GoaOp) (p : XElem), OpsFor xfrmSlots ops →
        SchemaValid xfrm_tag_seq p.children →
        SchemaValid xfrm_tag_seq (applyOps ops p).children)
    ∧ (∀ (ops : List GoaOp) (p : XElem), OpsFor lnSlots ops →
        SchemaValid ln_tag_seq p.children →
        SchemaValid ln_tag_seq (applyOps ops p).children)
    ∧ (∀ (ops : List GoaOp) (p : XElem), OpsFor cNvPrSlots ops →
        SchemaValid cNvPr_tag_seq p.children →
        SchemaValid cNvPr_tag_seq (applyOps ops p).children)
    ∧ (∀ (ops : List GoaOp) (p : XElem), OpsFor nvPrSlots ops →
        SchemaValid nvPr_tag_seq p.children →
        SchemaValid nvPr_tag_seq (applyOps ops p).children) := by
  refine ⟨insertBeforeSucc_spec, ?_, ?_, ?_, ?_, ?_⟩
  · exact fun ops p hops hp => applyOps_schemaValid spPrSlots_wf ops hops p hp
  · exact fun ops p hops hp => applyOps_schemaValid xfrmSlots_wf ops hops p hp
  · exact fun ops p hops hp => applyOps_schemaValid lnSlots_wf ops hops p hp
  · exact fun ops p hops hp => applyOps_schemaValid cNvPrSlots_wf ops hops p hp
  · exact fun ops p hops hp => applyOps_schemaValid nvPrSlots_wf ops hops p hp

/-- C1 witness: a `get_or_add` run on `p:spPr` — first `a:ln`, then
`a:xfrm`, then a choice fill — starting from an empty child list, ends
schema-ordered. -/
theorem claim_C1_witness :
    OpsFor spPrSlots
        [⟨spPr_ln_slot, "a:ln"⟩, ⟨spPr_xfrm_slot, "a:xfrm"⟩, ⟨spPr_fill_slot, "a:solidFill"⟩]
    ∧ SchemaValid spPr_tag_seq (XElem.mk "p:spPr" [] []).children
    ∧ SchemaValid spPr_tag_seq
        (applyOps
          [⟨spPr_ln_slot, "a:ln"⟩, ⟨spPr_xfrm_slot, "a:xfrm"⟩, ⟨spPr_fill_slot, "a:solidFill"⟩]
          (XElem.mk "p:spPr" [] [])).children :=
  ⟨by decide, by decide,
   claim_C1.2.1
     [⟨spPr_ln_slot, "a:ln"⟩, ⟨spPr_xfrm_slot, "a:xfrm"⟩, ⟨spPr_fill_slot, "a:solidFill"⟩]
     (XElem.mk "p:spPr" [] []) (by decide) (by decide)⟩

/-- C2: when the transform is absent, the derived geometry reads `x`,
`y`, `cx`, `cy` are all `none` while `rot` reads 0 and `flipH`/`flipV`
read false; when the transform is present, `x`/`y` are `none` if `a:off`
is absent, `cx`/`cy` are `none` if `a:ext` is absent, and an absent
`rot`/`flipH`/`flipV` attribute reads its default. -/
theorem claim_C2 (sp : XElem) :
    (shape_xfrm sp = none →
       shape_x sp = none ∧ shape_y sp = none ∧ shape_cx sp = none ∧ shape_cy sp = none
       ∧ shape_rot sp = 0 ∧ shape_flipH sp = false ∧ shape_flipV sp = false)
    ∧ (∀ x, shape_xfrm sp = some x →
        (firstChild "a:off" x = none → shape_x sp = none ∧ shape_y sp = none)
        ∧ (firstChild "a:ext" x = none → shape_cx sp = none ∧ shape_cy sp = none)
        ∧ (getAttr "rot" x = none → shape_rot sp = 0)
        ∧ (getAttr "flipH" x = none → shape_flipH sp = false)
        ∧ (getAttr "flipV" x = none → shape_flipV sp = false)) := by
  constructor
  · intro h
    simp [shape_x, shape_y, shape_cx, shape_cy, shape_rot, shape_flipH, shape_flipV, h]
  · intro x hx
    refine ⟨?_, ?_, ?_, ?_, ?_⟩ <;> intro h
    · simp [shape_x, shape_y, hx, xfrm_x, xfrm_y, h]
    · simp [shape_cx, shape_cy, hx, xfrm_cx, xfrm_cy, h]
    · simp [shape_rot, hx, xfrm_rot, h]
    · simp [shape_flipH, hx, xfrm_flipH, h]
    · simp [shape_flipV, hx, xfrm_flipV, h]

/-- C2 witness: a shape with no transform reads all-null geometry with
default rotation and flip; a shape whose transform has no `a:off`,
`a:ext` or attributes reads null position and size and the defaults. -/
theorem claim_C2_witness :
    (shape_xfrm (XElem.mk "p:sp" [] [XElem.mk "p:spPr" [] []]) = none
      ∧ (shape_x (XElem.mk "p:sp" [] [XElem.mk "p:spPr" [] []]) = none
         ∧ shape_y (XElem.mk "p:sp" [] [XElem.mk "p:spPr" [] []]) = none
         ∧ shape_cx (XElem.mk "p:sp" [] [XElem.mk "p:spPr" [] []]) = none
         ∧ shape_cy (XElem.mk "p:sp" [] [XElem.mk "p:spPr" [] []]) = none
         ∧ shape_rot (XElem.mk "p:sp" [] [XElem.mk "p:spPr" [] []]) = 0
         ∧ shape_flipH (XElem.mk "p:sp" [] [XElem.mk "p:spPr" [] []]) = false
         ∧ shape_flipV (XElem.mk "p:sp" [] [XElem.mk "p:spPr" [] []]) = false))
    ∧ (shape_xfrm (XElem.mk "p:sp" [] [XElem.mk "p:spPr" [] [XElem.mk "a:xfrm" [] []]])
        = some (XElem.mk "a:xfrm" [] [])
      ∧ (shape_x (XElem.mk "p:sp" [] [XElem.mk "p:spPr" [] [XElem.mk "a:xfrm" [] []]]) = none
         ∧ shape_y (XElem.mk "p:sp" [] [XElem.mk "p:spPr" [] [XElem.mk "a:xfrm" [] []]]) = none)) :=
  ⟨⟨by decide,
    (claim_C2 (XElem.mk "p:sp" [] [XElem.mk "p:spPr" [] []])).1 (by decide)⟩,
   ⟨by decide,
    ((claim_C2 (XElem.mk "p:sp" [] [XElem.mk "p:spPr" [] [XElem.mk "a:xfrm" [] []]])).2
      (XElem.mk "a:xfrm" [] []) (by decide)).1 (by decide)⟩⟩

/-- C3: on a choice slot (the line-fill choice of `a:ln` or the fill
choice of `p:spPr`), once one candidate is present a `get_or_add` for a
different candidate returns the already-present occupant and changes
nothing, so at most one member of the candidate set is ever present. -/
theorem claim_C3 (slot : ChildSlot) (hslot : slot = ln_fill_slot ∨ slot = spPr_fill_slot)
    (c1 c2 : String) (h1 : c1 ∈ slot.cands) (h2 : c2 ∈ slot.cands) (p : XElem) :
    slotGetOrAdd slot c2 ((slotGetOrAdd slot c1 p).2)
      = ((slotGetOrAdd slot c1 p).1, (slotGetOrAdd slot c1 p).2)
    ∧ (p.children.countP (isCand slot) ≤ 1 →
        ((slotGetOrAdd slot c1 p).2).children.countP (isCand slot) ≤ 1) := by
  constructor
  · exact slotGetOrAdd_found (slotGetOrAdd_occupant_present slot c1 p h1)
  · intro hcount
    cases hfind : p.children.find? (isCand slot) with
    | some c => rw [slotGetOrAdd_found hfind]; exact hcount
    | none =>
        unfold slotGetOrAdd
        rw [hfind]
        simp only [XElem.children_withChildren]
        rw [countP_insertBeforeSucc]
        have hz : p.children.countP (isCand slot) = 0 :=
          List.countP_eq_zero.mpr (fun c hc => by simp [List.find?_eq_none.mp hfind c hc])
        rw [hz]
        by_cases hp : isCand slot (newFor c1) <;> simp [hp]

/-- C3 witness: adding `a:solidFill` to an empty `a:ln`, then asking
`get_or_add` for `a:noFill`, returns the `a:solidFill` occupant,
changes nothing, and only one fill child is present. -/
theorem claim_C3_witness :
    slotGetOrAdd ln_fill_slot "a:noFill"
        ((slotGetOrAdd ln_fill_slot "a:solidFill" (XElem.mk "a:ln" [] [])).2)
      = ((slotGetOrAdd ln_fill_slot "a:solidFill" (XElem.mk "a:ln" [] [])).1,
         (slotGetOrAdd ln_fill_slot "a:solidFill" (XElem.mk "a:ln" [] [])).2)
    ∧ (XElem.mk "a:ln" [] []).children.countP (isCand ln_fill_slot) ≤ 1
    ∧ ((slotGetOrAdd ln_fill_slot "a:solidFill" (XElem.mk "a:ln" [] [])).2).children.countP
        (isCand ln_fill_slot) ≤ 1 :=
  ⟨(claim_C3 ln_fill_slot (Or.inl rfl) "a:solidFill" "a:noFill" (by decide) (by decide)
      (XElem.mk "a:ln" [] [])).1,
   by decide,
   (claim_C3 ln_fill_slot (Or.inl rfl) "a:solidFill" "a:noFill" (by decide) (by decide)
      (XElem.mk "a:ln" [] [])).2 (by decide)⟩

/-- C5: `get_or_add` is idempotent — a second call on the same slot from
the state the first call produced returns the identical occupant and the
identical parent (so sibling order is unchanged). -/
theorem claim_C5 (slot : ChildSlot) (cand : String) (hc : cand ∈ slot.cands) (p : XElem) :
    slotGetOrAdd slot cand ((slotGetOrAdd slot cand p).2) = slotGetOrAdd slot cand p := by
  rw [slotGetOrAdd_found (slotGetOrAdd_occupant_present slot cand p hc)]

/-- C5 witness: idempotence of `get_or_add a:xfrm` on a `p:spPr` that
already holds geometry and line children. -/
theorem claim_C5_witness :
    "a:xfrm" ∈ spPr_xfrm_slot.cands
    ∧ slotGetOrAdd spPr_xfrm_slot "a:xfrm"
        ((slotGetOrAdd spPr_xfrm_slot "a:xfrm"
          (XElem.mk "p:spPr" [] [XElem.mk "a:prstGeom" [] [], XElem.mk "a:ln" [] []])).2)
      = slotGetOrAdd spPr_xfrm_slot "a:xfrm"
          (XElem.mk "p:spPr" [] [XElem.mk "a:prstGeom" [] [], XElem.mk "a:ln" [] []]) :=
  ⟨by decide,
   claim_C5 spPr_xfrm_slot "a:xfrm" (by decide)
     (XElem.mk "p:spPr" [] [XElem.mk "a:prstGeom" [] [], XElem.mk "a:ln" [] []])⟩

/-- C6: when the placeholder-marker path (first child → `p:nvPr` →
`p:ph`) resolves to nothing, every typed placeholder accessor fails with
the not-a-placeholder error; when it resolves to a marker, each accessor
returns that marker's corresponding (defaulted) attribute value. -/
theorem claim_C6 (sp : XElem) :
    (shape_ph sp = none →
       shape_ph_type sp = .error .notAPlaceholder
       ∧ shape_ph_orient sp = .error .notAPlaceholder
       ∧ shape_ph_sz sp = .error .notAPlaceholder
       ∧ shape_ph_idx sp = .error .notAPlaceholder)
    ∧ (∀ m, shape_ph sp = some m →
       shape_ph_type sp = .ok (ct_Placeholder_type m)
       ∧ shape_ph_orient sp = .ok (ct_Placeholder_orient m)
       ∧ shape_ph_sz sp = .ok (ct_Placeholder_sz m)
       ∧ shape_ph_idx sp = .ok (ct_Placeholder_idx m)) := by
  constructor
  · intro h
    simp [shape_ph_type, shape_ph_orient, shape_ph_sz, shape_ph_idx, h]
  · intro m hm
    simp [shape_ph_type, shape_ph_orient, shape_ph_sz, shape_ph_idx, hm]

/-- C6 witness: a shape with no placeholder marker fails all four typed
accessors with the not-a-placeholder error. -/
theorem claim_C6_witness :
    shape_ph (XElem.mk "p:sp" [] [XElem.mk "p:nvSpPr" [] []]) = none
    ∧ (shape_ph_type (XElem.mk "p:sp" [] [XElem.mk "p:nvSpPr" [] []])
         = .error .notAPlaceholder
       ∧ shape_ph_orient (XElem.mk "p:sp" [] [XElem.mk "p:nvSpPr" [] []])
         = .error .notAPlaceholder
       ∧ shape_ph_sz (XElem.mk "p:sp" [] [XElem.mk "p:nvSpPr" [] []])
         = .error .notAPlaceholder
       ∧ shape_ph_idx (XElem.mk "p:sp" [] [XElem.mk "p:nvSpPr" [] []])
         = .error .notAPlaceholder) :=
  ⟨by decide,
   (claim_C6 (XElem.mk "p:sp" [] [XElem.mk "p:nvSpPr" [] []])).1 (by decide)⟩

/-- C7: a shape whose placeholder marker has no explicit `idx` attribute
reads placeholder index 0 (the schema default), not an error. -/
theorem claim_C7 (sp m : XElem) (hm : shape_ph sp = some m)
    (hidx : getAttr "idx" m = none) :
    shape_ph_idx sp = .ok (some 0) := by
  simp [shape_ph_idx, hm, ct_Placeholder_idx, hidx]

theorem find?_setAttrList (n : String) (v : AVal) (l : List (String × AVal)) :
    (setAttrList n v l).find? (fun p => decide (p.1 = n)) = some (n, v) := by
  induction l with
  | nil => simp [setAttrList, List.find?]
  | cons p ps ih =>
      by_cases h : p.1 = n
      · simp [setAttrList, h, List.find?]
      · simp only [setAttrList, if_neg h]
        rw [List.find?_cons]
        simp [h, ih]

theorem getAttr_setAttr (n : String) (v : AVal) (e : XElem) :
    getAttr n (setAttr n v e) = some v := by
  cases e
  unfold getAttr setAttr
  simp [XElem.attrs, find?_setAttrList]

theorem modifyChildren_tag_free {t s : String} {f : XElem → XElem} {l : List XElem}
    (hf : ∀ c, (f c).tag = c.tag) (hl : ∀ c ∈ l, c.tag ≠ s) :
    ∀ c ∈ modifyChildren t f l, c.tag ≠ s := by
  induction l with
  | nil => simp [modifyChildren]
  | cons c cs ih =>
      by_cases hct : c.tag = t
      · simp only [modifyChildren, if_pos hct]
        intro d hd
        rcases List.mem_cons.mp hd with hd | hd
        · rw [hd, hf c]
          exact hl c (by simp)
        · exact hl d (by simp [hd])
      · simp only [modifyChildren, if_neg hct]
        intro d hd
        rcases List.mem_cons.mp hd with hd | hd
        · rw [hd]
          exact hl c (by simp)
        · exact ih (fun e he => hl e (by simp [he])) d hd

theorem removeChildren_tag_free (s : String) (e : XElem) :
    ∀ c ∈ (removeChildren s e).children, c.tag ≠ s := by
  unfold removeChildren
  rw [XElem.children_withChildren]
  intro c hc
  have := (List.mem_filter.mp hc).2
  simpa using this

/-- C8: setting a preset-dash value on a line-properties element that has
a custom-dash child removes the custom-dash child and leaves a
preset-dash child carrying the given `val`. -/
theorem claim_C8 (ln : XElem) (v : AVal)
    (hcd : firstChild "a:custDash" ln ≠ none) :
    firstChild "a:custDash" (ln_set_prstDash_val v ln) = none
    ∧ (∃ pd, firstChild "a:prstDash" (ln_set_prstDash_val v ln) = some pd
        ∧ getAttr "val" pd = some v)
    ∧ ln_prstDash_val (ln_set_prstDash_val v ln) = some v := by
  have hslot : ln_prstDash_slot = (⟨["a:prstDash"], ln_tag_seq.drop 5⟩ : ChildSlot) := rfl
  have hfc : firstChild "a:prstDash" (ln_set_prstDash_val v ln)
      = some (setAttr "val" v
          ((firstChild "a:prstDash" (removeChildren "a:custDash" ln)).getD
            (newFor "a:prstDash"))) := by
    unfold ln_set_prstDash_val
    rw [firstChild_modifyChild _ _ _ (setAttr_tag "val" v), hslot,
      firstChild_slotGetOrAdd_singleton]
    rfl
  refine ⟨?_, ⟨_, hfc, getAttr_setAttr "val" v _⟩, ?_⟩
  · unfold ln_set_prstDash_val modifyChild
    unfold firstChild
    rw [XElem.children_withChildren]
    apply List.find?_eq_none.mpr
    intro c hc
    have hno : ∀ d ∈ ((slotGetOrAdd ln_prstDash_slot "a:prstDash"
        (removeChildren "a:custDash" ln)).2).children, d.tag ≠ "a:custDash" := by
      cases hfind : (removeChildren "a:custDash" ln).children.find?
          (isCand ln_prstDash_slot) with
      | some d =>
          rw [slotGetOrAdd_found hfind]
          exact removeChildren_tag_free "a:custDash" ln
      | none =>
          unfold slotGetOrAdd
          rw [hfind, XElem.children_withChildren]
          intro d hd
          rcases mem_insertBeforeSucc.mp hd with hd | hd
          · rw [hd, newFor_tag]
            decide
          · exact removeChildren_tag_free "a:custDash" ln d hd
    have := modifyChildren_tag_free (setAttr_tag "val" v) hno c hc
    simpa using this
  · unfold ln_prstDash_val
    rw [hfc]
    simp only [getAttr_setAttr]

/-- C8 witness: on `<a:ln><a:custDash/></a:ln>`, setting the preset dash
to `"dash"` removes `a:custDash` and stores `a:prstDash val="dash"`. -/
theorem claim_C8_witness :
    firstChild "a:custDash" (XElem.mk "a:ln" [] [XElem.mk "a:custDash" [] []]) ≠ none
    ∧ firstChild "a:custDash"
        (ln_set_prstDash_val (.str "dash") (XElem.mk "a:ln" [] [XElem.mk "a:custDash" [] []]))
      = none
    ∧ (∃ pd, firstChild "a:prstDash"
          (ln_set_prstDash_val (.str "dash") (XElem.mk "a:ln" [] [XElem.mk "a:custDash" [] []]))
        = some pd ∧ getAttr "val" pd = some (.str "dash"))
    ∧ ln_prstDash_val
        (ln_set_prstDash_val (.str "dash") (XElem.mk "a:ln" [] [XElem.mk "a:custDash" [] []]))
      = some (.str "dash") :=
  ⟨by decide,
   (claim_C8 (XElem.mk "a:ln" [] [XElem.mk "a:custDash" [] []]) (.str "dash") (by decide)).1,
   (claim_C8 (XElem.mk "a:ln" [] [XElem.mk "a:custDash" [] []]) (.str "dash") (by decide)).2.1,
   (claim_C8 (XElem.mk "a:ln" [] [XElem.mk "a:custDash" [] []]) (.str "dash") (by decide)).2.2⟩

theorem xfrm_set_x_new (v : Int) :
    xfrm_set_x v (newFor "a:xfrm")
      = XElem.mk "a:xfrm" [] [XElem.mk "a:off" [("x", .int v), ("y", .int 0)] []] := rfl

theorem xfrm_set_y_new (v : Int) :
    xfrm_set_y v (newFor "a:xfrm")
      = XElem.mk "a:xfrm" [] [XElem.mk "a:off" [("x", .int 0), ("y", .int v)] []] := rfl

theorem xfrm_set_cx_new (v : Int) :
    xfrm_set_cx v (newFor "a:xfrm")
      = XElem.mk "a:xfrm" [] [XElem.mk "a:ext" [("cx", .int v), ("cy", .int 0)] []] := rfl

theorem xfrm_set_cy_new (v : Int) :
    xfrm_set_cy v (newFor "a:xfrm")
      = XElem.mk "a:xfrm" [] [XElem.mk "a:ext" [("cx", .int 0), ("cy", .int v)] []] := rfl

/-- C4: on a shape whose `p:spPr` has no `a:xfrm`, reading `x` gives
nothing; setting `x := v` creates the transform with an `a:off` child
whose `x` is `v`, in schema order, and reading `x` back gives `v`. -/
theorem claim_C4 (sp spPr : XElem) (v : Int)
    (hsp : firstChild "p:spPr" sp = some spPr)
    (hx : firstChild "a:xfrm" spPr = none) :
    shape_x sp = none
    ∧ ∃ x', shape_xfrm (shape_set_x v sp) = some x'
        ∧ (∃ off, firstChild "a:off" x' = some off ∧ getAttr "x" off = some (.int v))
        ∧ SchemaOrdered xfrm_tag_seq x'.children
        ∧ shape_x (shape_set_x v sp) = some v := by
  have hmx : shape_xfrm (shape_set_x v sp)
      = some (XElem.mk "a:xfrm" [] [XElem.mk "a:off" [("x", .int v), ("y", .int 0)] []]) := by
    have h := shape_modify_xfrm_eq (xfrm_set_x v) hsp (xfrm_set_x_tag v)
    rw [hx] at h
    simpa [xfrm_set_x_new] using h
  constructor
  · simp [shape_x, shape_xfrm, shape_spPr, hsp, hx]
  · refine ⟨_, hmx, ⟨_, rfl, rfl⟩, ?_, ?_⟩
    · simp [SchemaOrdered, XElem.children]
    · unfold shape_x
      rw [hmx]
      rfl

/-- C4 witness: on a shape with an empty `p:spPr`, `x` reads nothing,
then `set x := 100` materializes the transform and offset and `x` reads
100. -/
theorem claim_C4_witness :
    firstChild "p:spPr" (XElem.mk "p:sp" [] [XElem.mk "p:spPr" [] []])
      = some (XElem.mk "p:spPr" [] [])
    ∧ firstChild "a:xfrm" (XElem.mk "p:spPr" [] []) = none
    ∧ (shape_x (XElem.mk "p:sp" [] [XElem.mk "p:spPr" [] []]) = none
       ∧ ∃ x', shape_xfrm (shape_set_x 100 (XElem.mk "p:sp" [] [XElem.mk "p:spPr" [] []]))
            = some x'
          ∧ (∃ off, firstChild "a:off" x' = some off ∧ getAttr "x" off = some (.int 100))
          ∧ SchemaOrdered xfrm_tag_seq x'.children
          ∧ shape_x (shape_set_x 100 (XElem.mk "p:sp" [] [XElem.mk "p:spPr" [] []]))
            = some 100) :=
  ⟨by decide, by decide,
   claim_C4 (XElem.mk "p:sp" [] [XElem.mk "p:spPr" [] []]) (XElem.mk "p:spPr" [] []) 100
     (by decide) (by decide)⟩

/-- C9: on a shape with no transform, setting `x` (resp. `y`) makes the
other offset coordinate read 0 rather than nothing, because the lazily
created `a:off` is built with x=0, y=0; likewise `cx`/`cy` through the
freshly built `a:ext` with cx=0, cy=0. -/
theorem claim_C9 (sp spPr : XElem) (v : Int)
    (hsp : firstChild "p:spPr" sp = some spPr)
    (hx : firstChild "a:xfrm" spPr = none) :
    shape_y (shape_set_x v sp) = some 0
    ∧ shape_x (shape_set_y v sp) = some 0
    ∧ shape_cy (shape_set_cx v sp) = some 0
    ∧ shape_cx (shape_set_cy v sp) = some 0 := by
  have h1 := shape_modify_xfrm_eq (xfrm_set_x v) hsp (xfrm_set_x_tag v)
  have h2 := shape_modify_xfrm_eq (xfrm_set_y v) hsp (xfrm_set_y_tag v)
  have h3 := shape_modify_xfrm_eq (xfrm_set_cx v) hsp (xfrm_set_cx_tag v)
  have h4 := shape_modify_xfrm_eq (xfrm_set_cy v) hsp (xfrm_set_cy_tag v)
  rw [hx] at h1 h2 h3 h4
  simp only [Option.getD_none] at h1 h2 h3 h4
  rw [xfrm_set_x_new] at h1
  rw [xfrm_set_y_new] at h2
  rw [xfrm_set_cx_new] at h3
  rw [xfrm_set_cy_new] at h4
  refine ⟨?_, ?_, ?_, ?_⟩
  · unfold shape_y
    rw [show shape_set_x v sp = shape_modify_xfrm (xfrm_set_x v) sp from rfl, h1]
    rfl
  · unfold shape_x
    rw [show shape_set_y v sp = shape_modify_xfrm (xfrm_set_y v) sp from rfl, h2]
    rfl
  · unfold shape_cy
    rw [show shape_set_cx v sp = shape_modify_xfrm (xfrm_set_cx v) sp from rfl, h3]
    rfl
  · unfold shape_cx
    rw [show shape_set_cy v sp = shape_modify_xfrm (xfrm_set_cy v) sp from rfl, h4]
    rfl

/-- C9 witness: on a shape with an empty `p:spPr`, after `set x := 7` the
`y` read is 0, and symmetrically for the other three coordinates. -/
theorem claim_C9_witness :
    firstChild "p:spPr" (XElem.mk "p:sp" [] [XElem.mk "p:spPr" [] []])
      = some (XElem.mk "p:spPr" [] [])
    ∧ firstChild "a:xfrm" (XElem.mk "p:spPr" [] []) = none
    ∧ (shape_y (shape_set_x 7 (XElem.mk "p:sp" [] [XElem.mk "p:spPr" [] []])) = some 0
       ∧ shape_x (shape_set_y 7 (XElem.mk "p:sp" [] [XElem.mk "p:spPr" [] []])) = some 0
       ∧ shape_cy (shape_set_cx 7 (XElem.mk "p:sp" [] [XElem.mk "p:spPr" [] []])) = some 0
       ∧ shape_cx (shape_set_cy 7 (XElem.mk "p:sp" [] [XElem.mk "p:spPr" [] []])) = some 0) :=
  ⟨by decide, by decide,
   claim_C9 (XElem.mk "p:sp" [] [XElem.mk "p:spPr" [] []]) (XElem.mk "p:spPr" [] []) 7
     (by decide) (by decide)⟩

/-- C10: on a shape with no transform, every geometry setter — including
`rot := 0` and `flipH := false`, which write the attribute's schema
default — materializes the `a:xfrm` child. -/
theorem claim_C10 (sp spPr : XElem)
    (hsp : firstChild "p:spPr" sp = some spPr)
    (hx : firstChild "a:xfrm" spPr = none) :
    (∀ v : Int, shape_xfrm (shape_set_rot v sp) ≠ none
       ∧ shape_xfrm (shape_set_x v sp) ≠ none
       ∧ shape_xfrm (shape_set_y v sp) ≠ none
       ∧ shape_xfrm (shape_set_cx v sp) ≠ none
       ∧ shape_xfrm (shape_set_cy v sp) ≠ none)
    ∧ (∀ b : Bool, shape_xfrm (shape_set_flipH b sp) ≠ none
       ∧ shape_xfrm (shape_set_flipV b sp) ≠ none) := by
  constructor
  · intro v
    refine ⟨?_, ?_, ?_, ?_, ?_⟩
    · rw [show shape_set_rot v sp = shape_modify_xfrm (xfrm_set_rot v) sp from rfl,
        shape_modify_xfrm_eq _ hsp (xfrm_set_rot_tag v)]
      simp
    · rw [show shape_set_x v sp = shape_modify_xfrm (xfrm_set_x v) sp from rfl,
        shape_modify_xfrm_eq _ hsp (xfrm_set_x_tag v)]
      simp
    · rw [show shape_set_y v sp = shape_modify_xfrm (xfrm_set_y v) sp from rfl,
        shape_modify_xfrm_eq _ hsp (xfrm_set_y_tag v)]
      simp
    · rw [show shape_set_cx v sp = shape_modify_xfrm (xfrm_set_cx v) sp from rfl,
        shape_modify_xfrm_eq _ hsp (xfrm_set_cx_tag v)]
      simp
    · rw [show shape_set_cy v sp = shape_modify_xfrm (xfrm_set_cy v) sp from rfl,
        shape_modify_xfrm_eq _ hsp (xfrm_set_cy_tag v)]
      simp
  · intro b
    constructor
    · rw [show shape_set_flipH b sp = shape_modify_xfrm (xfrm_set_flipH b) sp from rfl,
        shape_modify_xfrm_eq _ hsp (xfrm_set_flipH_tag b)]
      simp
    · rw [show shape_set_flipV b sp = shape_modify_xfrm (xfrm_set_flipV b) sp from rfl,
        shape_modify_xfrm_eq _ hsp (xfrm_set_flipV_tag b)]
      simp

/-- C10 witness: on a shape with an empty `p:spPr`, `rot := 0` and
`flipH := false` (the schema defaults) still materialize the transform,
as does `x := 0`. -/
theorem claim_C10_witness :
    firstChild "p:spPr" (XElem.mk "p:sp" [] [XElem.mk "p:spPr" [] []])
      = some (XElem.mk "p:spPr" [] [])
    ∧ firstChild "a:xfrm" (XElem.mk "p:spPr" [] []) = none
    ∧ shape_xfrm (shape_set_rot 0 (XElem.mk "p:sp" [] [XElem.mk "p:spPr" [] []])) ≠ none
    ∧ shape_xfrm (shape_set_flipH false (XElem.mk "p:sp" [] [XElem.mk "p:spPr" [] []])) ≠ none
    ∧ shape_xfrm (shape_set_x 0 (XElem.mk "p:sp" [] [XElem.mk "p:spPr" [] []])) ≠ none :=
  ⟨by decide, by decide,
   ((claim_C10 (XElem.mk "p:sp" [] [XElem.mk "p:spPr" [] []]) (XElem.mk "p:spPr" [] [])
      (by decide) (by decide)).1 0).1,
   ((claim_C10 (XElem.mk "p:sp" [] [XElem.mk "p:spPr" [] []]) (XElem.mk "p:spPr" [] [])
      (by decide) (by decide)).2 false).1,
   ((claim_C10 (XElem.mk "p:sp" [] [XElem.mk "p:spPr" [] []]) (XElem.mk "p:spPr" [] [])
      (by decide) (by decide)).1 0).2.1⟩

/-- C7 witness: a shape whose marker carries only a `type` attribute
reads placeholder index 0. -/
theorem claim_C7_witness :
    shape_ph
        (XElem.mk "p:sp" []
          [XElem.mk "p:nvSpPr" []
            [XElem.mk "p:nvPr" [] [XElem.mk "p:ph" [("type", .str "title")] []]]])
      = some (XElem.mk "p:ph" [("type", .str "title")] [])
    ∧ getAttr "idx" (XElem.mk "p:ph" [("type", .str "title")] []) = none
    ∧ shape_ph_idx
        (XElem.mk "p:sp" []
          [XElem.mk "p:nvSpPr" []
            [XElem.mk "p:nvPr" [] [XElem.mk "p:ph" [("type", .str "title")] []]]])
      = .ok (some 0) :=
  ⟨by decide, by decide,
   claim_C7 _ (XElem.mk "p:ph" [("type", .str "title")] []) (by decide) (by decide)⟩
